import Mathlib

/-!
# Verification of the telegram websocket-bridge router

Shallow embedding of the session store (`app/session_manager.py`), the
connection registry (`app/websocket_server.py`), the reply-thread map
(`app/telegram_bot.py`) and the message model (`models/message.py`).

Python dicts are modelled as association lists with insert-replace
semantics; timestamps (`datetime.now()`) are modelled as integer ticks,
with `timedelta` comparison becoming integer comparison.
-/

namespace Bridge

/-! ## Python dict model -/

variable {α : Type} {β : Type} [DecidableEq α]

/-- Python `d[k] = v`: replace the binding of the first matching key, else append. -/
def dictInsert (k : α) (v : β) : List (α × β) → List (α × β)
  | [] => [(k, v)]
  | (k', v') :: rest =>
      if k = k' then (k, v) :: rest else (k', v') :: dictInsert k v rest

/-- Python `d.get(k)`: first binding for `k`, if any. -/
def dictLookup (k : α) : List (α × β) → Option β
  | [] => none
  | (k', v') :: rest => if k = k' then some v' else dictLookup k rest

/-- Python `k in d`. -/
def dictContains (k : α) (d : List (α × β)) : Bool :=
  (dictLookup k d).isSome

/-- Python `del d[k]` (on a dict, keys are unique, so filtering all is faithful). -/
def dictRemove (k : α) (d : List (α × β)) : List (α × β) :=
  d.filter (fun e => e.1 ≠ k)

/-- Python `d[k].field = ...`: mutate the first binding for `k` in place. -/
def dictModify (k : α) (f : β → β) : List (α × β) → List (α × β)
  | [] => []
  | (k', v') :: rest =>
      if k = k' then (k', f v') :: rest else (k', v') :: dictModify k f rest

theorem dictLookup_dictInsert_self (k : α) (v : β) (d : List (α × β)) :
    dictLookup k (dictInsert k v d) = some v := by
  induction d with
  | nil => simp [dictInsert, dictLookup]
  | cons e rest ih =>
      by_cases h : k = e.1 <;> simp [dictInsert, dictLookup, h, ih]

theorem dictLookup_dictInsert_ne (k k' : α) (v : β) (d : List (α × β))
    (h : k' ≠ k) : dictLookup k' (dictInsert k v d) = dictLookup k' d := by
  induction d with
  | nil => simp [dictInsert, dictLookup, h]
  | cons e rest ih =>
      by_cases hk : k = e.1
      · have hne : ¬ k' = e.1 := fun hh => h (hh.trans hk.symm)
        simp [dictInsert, dictLookup, hk, hne]
      · by_cases hk' : k' = e.1 <;> simp [dictInsert, dictLookup, hk, hk', ih]

theorem dictLookup_dictRemove_self (k : α) (d : List (α × β)) :
    dictLookup k (dictRemove k d) = none := by
  induction d with
  | nil => simp [dictRemove, dictLookup]
  | cons e rest ih =>
      by_cases h : e.1 = k
      · simpa [dictRemove, dictLookup, h] using ih
      · have : ¬ k = e.1 := fun hk => h hk.symm
        simp [dictRemove, dictLookup, h, this] at ih ⊢
        exact ih

theorem dictLookup_dictModify_self (k : α) (f : β → β) (d : List (α × β)) :
    dictLookup k (dictModify k f d) = (dictLookup k d).map f := by
  induction d with
  | nil => simp [dictModify, dictLookup]
  | cons e rest ih =>
      by_cases h : k = e.1 <;> simp [dictModify, dictLookup, h, ih]

theorem dictLookup_dictModify_ne (k k' : α) (f : β → β) (d : List (α × β))
    (h : k' ≠ k) : dictLookup k' (dictModify k f d) = dictLookup k' d := by
  induction d with
  | nil => simp [dictModify, dictLookup]
  | cons e rest ih =>
      by_cases hk : k = e.1
      · subst hk
        simp [dictModify, dictLookup, h]
      · by_cases hk' : k' = e.1 <;> simp [dictModify, dictLookup, hk, hk', ih]

theorem dictLookup_eq_none_iff (k : α) (d : List (α × β)) :
    dictLookup k d = none ↔ ∀ e ∈ d, e.1 ≠ k := by
  induction d with
  | nil => simp [dictLookup]
  | cons e rest ih =>
      by_cases h : k = e.1
      · subst h
        simp [dictLookup]
      · simp only [dictLookup, if_neg h, ih, List.mem_cons]
        constructor
        · rintro hall e' (rfl | he')
          · exact fun hh => h hh.symm
          · exact hall e' he'
        · intro hall e' he'
          exact hall e' (Or.inr he')

/-- Keys after an insert: unchanged when the key was present, appended else. -/
theorem keys_dictInsert (k : α) (v : β) (d : List (α × β)) :
    (dictInsert k v d).map Prod.fst
      = if k ∈ d.map Prod.fst then d.map Prod.fst
        else d.map Prod.fst ++ [k] := by
  induction d with
  | nil => simp [dictInsert]
  | cons e rest ih =>
      by_cases hk : k = e.1
      · simp [dictInsert, hk]
      · have hne : ¬ k = e.1 := hk
        simp only [dictInsert, if_neg hne, List.map_cons, ih, List.mem_cons]
        by_cases hmem : k ∈ rest.map Prod.fst
        · simp [hmem, hne]
        · simp [hmem, hne]

/-- Keys of `dictInsert` stay duplicate-free: Python dicts keep unique keys. -/
theorem nodup_keys_dictInsert (k : α) (v : β) (d : List (α × β))
    (h : (d.map Prod.fst).Nodup) :
    ((dictInsert k v d).map Prod.fst).Nodup := by
  rw [keys_dictInsert]
  by_cases hmem : k ∈ d.map Prod.fst
  · simpa [hmem] using h
  · simp only [if_neg hmem]
    refine List.Nodup.append h (List.nodup_singleton k) ?_
    intro x hx hxk
    simp only [List.mem_singleton] at hxk
    exact hmem (hxk ▸ hx)

/-! ## Configuration (`config/config.py`)

Only the fields the session/connection logic reads. -/

structure Settings where
  /-- Field `SESSION_TIMEOUT`, seconds (default 86400). -/
  sessionTimeout : Int
  /-- Field `MAX_SESSIONS` (default 1000). -/
  maxSessions : Nat
  /-- Field `CLEANUP_INTERVAL`, seconds (default 300). -/
  cleanupInterval : Int
deriving DecidableEq, Repr

def defaultSettings : Settings :=
  { sessionTimeout := 86400, maxSessions := 1000, cleanupInterval := 300 }

/-! ## Session store (`app/session_manager.py`)

Timestamps are integer ticks (seconds); metadata dict values are strings. -/

structure Session where
  session_id : String
  created_at : Int
  last_activity : Int
  data : List (String × String)
  message_count : Nat := 0
  is_active : Bool := true
deriving DecidableEq, Repr

/-- The `daily_stats` defaultdict: the three counters the code touches. -/
structure DailyStats where
  sessions_created : Nat := 0
  messages : Nat := 0
  sessions_ended : Nat := 0
deriving DecidableEq, Repr

structure SessionManager where
  sessions : List (String × Session)
  start_time : Int
  daily_stats : DailyStats
deriving DecidableEq, Repr

/-- Model of `datetime.date()` bucketing: tick `t` is seconds since epoch, so two
ticks fall on the same day iff they share the quotient by 86400. -/
def dayOf (t : Int) : Int := t / 86400

/-- Embeds `SessionManager.create_session`: builds a fresh record and stores it
under `session_id`, unconditionally. -/
def createSession (sm : SessionManager) (session_id : String)
    (initial_data : List (String × String)) (now : Int) :
    SessionManager × Session :=
  let session : Session :=
    { session_id := session_id
      created_at := now
      last_activity := now
      data := initial_data
      message_count := 0
      is_active := true }
  ({ sm with
      sessions := dictInsert session_id session sm.sessions
      daily_stats :=
        { sm.daily_stats with
            sessions_created := sm.daily_stats.sessions_created + 1 } },
   session)

/-- Embeds `SessionManager.update_session_activity`. -/
def updateSessionActivity (sm : SessionManager) (session_id : String)
    (now : Int) : SessionManager :=
  if dictContains session_id sm.sessions then
    { sm with
        sessions := dictModify session_id
          (fun s => { s with last_activity := now, is_active := true })
          sm.sessions }
  else sm

/-- Embeds `SessionManager.increment_message_count`. -/
def incrementMessageCount (sm : SessionManager) (session_id : String) :
    SessionManager :=
  if dictContains session_id sm.sessions then
    { sm with
        sessions := dictModify session_id
          (fun s => { s with message_count := s.message_count + 1 })
          sm.sessions
        daily_stats :=
          { sm.daily_stats with messages := sm.daily_stats.messages + 1 } }
  else sm

/-- Embeds `SessionManager.end_session`: flips `is_active` and bumps the
`sessions_ended` counter whenever the id is present. -/
def endSession (sm : SessionManager) (session_id : String) : SessionManager :=
  if dictContains session_id sm.sessions then
    { sm with
        sessions := dictModify session_id
          (fun s => { s with is_active := false }) sm.sessions
        daily_stats :=
          { sm.daily_stats with
              sessions_ended := sm.daily_stats.sessions_ended + 1 } }
  else sm

/-- Embeds `SessionManager.validate_session`: returns the report and the store
(validation lazily flips `is_active` on timeout, so it is not a pure read). -/
def validateSession (st : Settings) (sm : SessionManager)
    (session_id : String) (now : Int) : Bool × SessionManager :=
  match dictLookup session_id sm.sessions with
  | none => (false, sm)
  | some session =>
      if now - session.last_activity > st.sessionTimeout then
        (false,
         { sm with
             sessions := dictModify session_id
               (fun s => { s with is_active := false }) sm.sessions })
      else (session.is_active, sm)

/-- The removal test of `_perform_cleanup`: inactive, or idle past timeout. -/
def cleanupRemoves (st : Settings) (now : Int) (s : Session) : Bool :=
  !s.is_active || decide (now - s.last_activity > st.sessionTimeout)

/-- Embeds `SessionManager._perform_cleanup`: collects the ids to drop, deletes
them one by one, then resets the daily stats on a date change. -/
def performCleanup (st : Settings) (sm : SessionManager) (now : Int) :
    SessionManager :=
  let to_remove :=
    ((sm.sessions.filter (fun e => cleanupRemoves st now e.2)).map Prod.fst)
  let sessions' := to_remove.foldl (fun d sid => dictRemove sid d) sm.sessions
  let sm' := { sm with sessions := sessions' }
  if dayOf now ≠ dayOf sm.start_time then
    { sm' with daily_stats := {}, start_time := now }
  else sm'

/-! ## Connection registry (`app/websocket_server.py`)

A websocket handle is a numeric id; what `await websocket.send(...)` does
is supplied by a transport oracle mapping a handle to an outcome, so that
`ConnectionClosed` and generic exceptions can be distinguished. `Sys`
pairs the registry with the session store it cascades into, plus the set
of handles on which `.close()` has been called. -/

/-- Outcome of one `websocket.send` attempt. -/
inductive SendOutcome where
  /-- The send returned normally. -/
  | ok : SendOutcome
  /-- The send raised `ConnectionClosed`. -/
  | closed : SendOutcome
  /-- The send raised some other exception. -/
  | err : SendOutcome
deriving DecidableEq, Repr

structure ClientConnection where
  /-- The websocket handle (`connection.websocket`). -/
  websocket : Nat
  session_id : String
  connected_at : Int
  last_activity : Int
  user_agent : String := ""
  ip_address : String := ""
deriving DecidableEq, Repr

structure WebSocketManager where
  connections : List (String × ClientConnection)
deriving DecidableEq, Repr

/-- Joint state of `WebSocketManager` and its `SessionManager`, with the
handles closed so far (the effect of `websocket.close()`). -/
structure Sys where
  ws : WebSocketManager
  sm : SessionManager
  closedHandles : List Nat
deriving DecidableEq, Repr

/-- The registration step of `WebSocketManager._handle_client` (lines
90–96): store the connection record and create the session. The old
handle for the id, if any, is not touched. -/
def registerConnection (sys : Sys) (session_id : String)
    (conn : ClientConnection) (now : Int) : Sys :=
  let ws' : WebSocketManager :=
    { connections := dictInsert session_id conn sys.ws.connections }
  let (sm', _) := createSession sys.sm session_id
    [("user_agent", conn.user_agent),
     ("ip_address", conn.ip_address),
     ("connected_at", toString conn.connected_at)] now
  { sys with ws := ws', sm := sm' }

/-- Embeds `WebSocketManager._cleanup_connection`: pop the entry, close its
handle (exceptions swallowed), and end the session in the store. -/
def cleanupConnection (sys : Sys) (session_id : String) : Sys :=
  match dictLookup session_id sys.ws.connections with
  | none => sys
  | some connection =>
      { ws := { connections := dictRemove session_id sys.ws.connections }
        closedHandles := connection.websocket :: sys.closedHandles
        sm := endSession sys.sm session_id }

/-- Embeds `WebSocketManager.send_to_client`: one send attempt; on
`ConnectionClosed` the connection is cleaned up; any other exception is
only logged. Returns the boolean result, the new state, and the number of
send attempts made. -/
def sendToClient (outcome : Nat → SendOutcome) (sys : Sys)
    (session_id : String) : Bool × Sys × Nat :=
  match dictLookup session_id sys.ws.connections with
  | none => (false, sys, 0)
  | some connection =>
      match outcome connection.websocket with
      | .ok => (true, sys, 1)
      | .closed => (false, cleanupConnection sys session_id, 1)
      | .err => (false, sys, 1)

/-- An entry of the broadcast loop that ends up on the `disconnected`
list: it was not excluded and its send raised `ConnectionClosed`. -/
def broadcastFails (outcome : Nat → SendOutcome) (exclude : Option String)
    (e : String × ClientConnection) : Bool :=
  !(some e.1 == exclude) && (outcome e.2.websocket == SendOutcome.closed)

/-- Embeds `WebSocketManager.broadcast`: iterate over the current entries,
collect the ids whose send raised `ConnectionClosed`, then clean each up
after the pass. Other send failures are only logged; nothing is returned
to the caller. -/
def broadcast (outcome : Nat → SendOutcome) (sys : Sys)
    (exclude : Option String) : Sys :=
  let disconnected :=
    ((sys.ws.connections.filter (broadcastFails outcome exclude)).map
      Prod.fst)
  disconnected.foldl (fun s sid => cleanupConnection s sid) sys

/-- Number of sends of one broadcast pass that returned normally
(derived bookkeeping; the code itself reports no count). -/
def broadcastDelivered (outcome : Nat → SendOutcome) (sys : Sys)
    (exclude : Option String) : Nat :=
  ((sys.ws.connections.filter
      (fun e => !(some e.1 == exclude)
        && (outcome e.2.websocket == SendOutcome.ok))).length)

/-! ## Reply-thread map (`app/telegram_bot.py`)

`self.message_map: Dict[int, str]`, keyed by Telegram message id. -/

structure TelegramBotState where
  message_map : List (Int × String)
deriving DecidableEq, Repr

/-- The `self.message_map[mid] = sid` statements (e.g. line 421):
a plain dict store. -/
def recordMapping (tb : TelegramBotState) (mid : Int) (sid : String) :
    TelegramBotState :=
  { message_map := dictInsert mid sid tb.message_map }

/-- The `self.message_map.get(mid)` lookups (e.g. line 250). -/
def resolveMapping (tb : TelegramBotState) (mid : Int) : Option String :=
  dictLookup mid tb.message_map

/-- One sweep pass of the background task scheduled in `app/main.py`
(line 50, `session_manager.cleanup_old_sessions()`): it calls only
`_perform_cleanup` on the session store and touches nothing else. -/
def sweepStep (st : Settings) (sys : Sys) (now : Int) : Sys :=
  { sys with sm := performCleanup st sys.sm now }

/-! ## Supporting lemmas -/

theorem dictRemove_eq_self_of_lookup_none (k : α) (d : List (α × β))
    (h : dictLookup k d = none) : dictRemove k d = d := by
  rw [dictLookup_eq_none_iff] at h
  exact List.filter_eq_self.mpr (fun e he => by simpa using h e he)

theorem dictLookup_filter_eq_none (k : α) (p : α × β → Bool)
    (d : List (α × β)) (h : dictLookup k d = none) :
    dictLookup k (d.filter p) = none := by
  rw [dictLookup_eq_none_iff] at h ⊢
  exact fun e he => h e (List.mem_of_mem_filter he)

/-- Looking up a key in a filtered dict, given its binding and unique keys. -/
theorem dictLookup_filter (d : List (α × β)) (p : α × β → Bool)
    (hn : (d.map Prod.fst).Nodup) (k : α) (v : β)
    (hk : dictLookup k d = some v) :
    dictLookup k (d.filter p) = if p (k, v) then some v else none := by
  induction d with
  | nil => simp [dictLookup] at hk
  | cons e rest ih =>
      simp only [List.map_cons, List.nodup_cons] at hn
      by_cases h : k = e.1
      · subst h
        simp only [dictLookup, if_pos rfl, Option.some.injEq] at hk
        have he : e = (e.1, v) := by
          cases e
          simp_all
        have hnone : dictLookup e.1 rest = none := by
          rw [dictLookup_eq_none_iff]
          intro e' he' hkey
          exact hn.1 (hkey ▸ List.mem_map_of_mem Prod.fst he')
        by_cases hp : p (e.1, v)
        · rw [he]
          simp [List.filter, hp, dictLookup]
        · rw [he]
          simp only [List.filter, hp]
          exact dictLookup_filter_eq_none _ _ _ hnone
      · simp only [dictLookup, if_neg h] at hk
        have := ih hn.2 hk
        by_cases hp : p e
        · simpa [List.filter_cons, hp, dictLookup, h] using this
        · simpa [List.filter_cons, hp] using this

/-- Deleting a list of keys one after the other is filtering them out. -/
theorem foldl_dictRemove (L : List α) (d : List (α × β)) :
    L.foldl (fun d' k => dictRemove k d') d
      = d.filter (fun e => decide (e.1 ∉ L)) := by
  induction L generalizing d with
  | nil => simp
  | cons k L ih =>
      rw [List.foldl_cons, ih, dictRemove, List.filter_filter]
      refine List.filter_congr (fun e _ => ?_)
      by_cases h1 : e.1 = k <;> by_cases h2 : e.1 ∈ L <;>
        simp [h1, h2]

omit [DecidableEq α] in
/-- With unique keys, a key of an entry of `d` lands in the key list of
`d.filter p` exactly when its own entry passes `p`. -/
theorem key_mem_filter_keys (d : List (α × β)) (p : α × β → Bool)
    (hn : (d.map Prod.fst).Nodup) (e : α × β) (he : e ∈ d) :
    e.1 ∈ (d.filter p).map Prod.fst ↔ p e = true := by
  constructor
  · intro hmem
    rcases List.mem_map.mp hmem with ⟨e', he', hkey⟩
    have he'd := List.mem_of_mem_filter he'
    have : e' = e :=
      List.inj_on_of_nodup_map hn he'd he hkey
    exact this ▸ (List.of_mem_filter he')
  · intro hp
    exact List.mem_map_of_mem Prod.fst (List.mem_filter.mpr ⟨he, hp⟩)

/-- A cleanup pass always leaves the registry with the key filtered out,
whether or not it was present. -/
theorem cleanupConnection_connections (sys : Sys) (sid : String) :
    (cleanupConnection sys sid).ws.connections
      = dictRemove sid sys.ws.connections := by
  unfold cleanupConnection
  cases h : dictLookup sid sys.ws.connections with
  | none => exact (dictRemove_eq_self_of_lookup_none _ _ h).symm
  | some c => rfl

/-- Registry contents after cleaning up a list of ids. -/
theorem foldl_cleanupConnection_connections (L : List String) (sys : Sys) :
    (L.foldl (fun s sid => cleanupConnection s sid) sys).ws.connections
      = L.foldl (fun d sid => dictRemove sid d) sys.ws.connections := by
  induction L generalizing sys with
  | nil => rfl
  | cons sid L ih =>
      rw [List.foldl_cons, List.foldl_cons, ih,
        cleanupConnection_connections]

/-- What one broadcast pass leaves in the registry: exactly the entries
that were excluded or whose send did not raise `ConnectionClosed`. -/
theorem broadcast_connections_eq (outcome : Nat → SendOutcome) (sys : Sys)
    (exclude : Option String)
    (hn : (sys.ws.connections.map Prod.fst).Nodup) :
    (broadcast outcome sys exclude).ws.connections
      = sys.ws.connections.filter
          (fun e => !(broadcastFails outcome exclude e)) := by
  unfold broadcast
  rw [foldl_cleanupConnection_connections, foldl_dictRemove]
  refine List.filter_congr (fun e he => ?_)
  have := key_mem_filter_keys sys.ws.connections
    (broadcastFails outcome exclude) hn e he
  by_cases hmem :
      e.1 ∈ (sys.ws.connections.filter
        (broadcastFails outcome exclude)).map Prod.fst
  · simp [hmem, this.mp hmem]
  · have : ¬ broadcastFails outcome exclude e = true :=
      fun hp => hmem (this.mpr hp)
    simp only [Bool.not_eq_true] at this
    simp [hmem, this]

/-- What one cleanup sweep leaves in the session store: exactly the
sessions that are active and not yet past the timeout. -/
theorem performCleanup_sessions_eq (st : Settings) (sm : SessionManager)
    (now : Int) (hn : (sm.sessions.map Prod.fst).Nodup) :
    (performCleanup st sm now).sessions
      = sm.sessions.filter (fun e => !(cleanupRemoves st now e.2)) := by
  have hbody :
      (((sm.sessions.filter (fun e => cleanupRemoves st now e.2)).map
          Prod.fst).foldl (fun d sid => dictRemove sid d) sm.sessions)
        = sm.sessions.filter (fun e => !(cleanupRemoves st now e.2)) := by
    rw [foldl_dictRemove]
    refine List.filter_congr (fun e he => ?_)
    have := key_mem_filter_keys sm.sessions
      (fun e => cleanupRemoves st now e.2) hn e he
    by_cases hmem :
        e.1 ∈ (sm.sessions.filter
          (fun e => cleanupRemoves st now e.2)).map Prod.fst
    · simp [hmem, this.mp hmem]
    · have : ¬ cleanupRemoves st now e.2 = true :=
        fun hp => hmem (this.mpr hp)
      simp only [Bool.not_eq_true] at this
      simp [hmem, this]
  unfold performCleanup
  by_cases hday : dayOf now ≠ dayOf sm.start_time <;> simpa [hday] using hbody

/-- Second `dictModify` with an idempotent update changes nothing. -/
theorem dictModify_dictModify_of_idem (k : α) (f : β → β)
    (hf : ∀ b, f (f b) = f b) (d : List (α × β)) :
    dictModify k f (dictModify k f d) = dictModify k f d := by
  induction d with
  | nil => rfl
  | cons e rest ih =>
      by_cases h : k = e.1 <;> simp [dictModify, h, hf, ih]

/-! ## Message model (`models/message.py`)

Metadata values pass through `to_dict`/`from_dict` untouched, so the
`Dict[str, Any]` is modelled as a string-to-string list. `from_dict`'s
defaults for a missing id/timestamp call `uuid.uuid4()`/`datetime.now()`;
those two fresh values are passed in explicitly. -/

inductive MessageType where
  | text | voice | image | file | system | admin | error
  | typing | read_receipt | join | leave
deriving DecidableEq, Repr

/-- The `.value` of each `MessageType` member. -/
def MessageType.value : MessageType → String
  | .text => "text"
  | .voice => "voice"
  | .image => "image"
  | .file => "file"
  | .system => "system"
  | .admin => "admin"
  | .error => "error"
  | .typing => "typing"
  | .read_receipt => "read_receipt"
  | .join => "join"
  | .leave => "leave"

/-- Embeds `MessageType(s)`: `none` models the `ValueError` on unknown values. -/
def messageTypeOfString (s : String) : Option MessageType :=
  if s = "text" then some .text
  else if s = "voice" then some .voice
  else if s = "image" then some .image
  else if s = "file" then some .file
  else if s = "system" then some .system
  else if s = "admin" then some .admin
  else if s = "error" then some .error
  else if s = "typing" then some .typing
  else if s = "read_receipt" then some .read_receipt
  else if s = "join" then some .join
  else if s = "leave" then some .leave
  else none

inductive MessageDirection where
  | visitor_to_admin | admin_to_visitor | system
deriving DecidableEq, Repr

def MessageDirection.value : MessageDirection → String
  | .visitor_to_admin => "visitor_to_admin"
  | .admin_to_visitor => "admin_to_visitor"
  | .system => "system"

/-- Embeds `MessageDirection(s)`. -/
def messageDirectionOfString (s : String) : Option MessageDirection :=
  if s = "visitor_to_admin" then some .visitor_to_admin
  else if s = "admin_to_visitor" then some .admin_to_visitor
  else if s = "system" then some .system
  else none

structure Message where
  id : String
  session_id : String := ""
  content : String := ""
  message_type : MessageType := .text
  direction : MessageDirection := .visitor_to_admin
  timestamp : String
  metadata : List (String × String) := []
deriving DecidableEq, Repr

/-- The dictionary shape `Message.to_dict` produces and `Message.from_dict`
consumes; `none` is an absent key. -/
structure MsgDict where
  id : Option String := none
  session_id : Option String := none
  content : Option String := none
  type : Option String := none
  direction : Option String := none
  timestamp : Option String := none
  metadata : Option (List (String × String)) := none
deriving DecidableEq, Repr

/-- Embeds `Message.to_dict`. -/
def Message.toDict (m : Message) : MsgDict :=
  { id := some m.id
    session_id := some m.session_id
    content := some m.content
    type := some m.message_type.value
    direction := some m.direction.value
    timestamp := some m.timestamp
    metadata := some m.metadata }

/-- Embeds `Message.from_dict`: `data["session_id"]`, `data["content"]` and
`data["type"]` raise `KeyError` when absent and `MessageType`/
`MessageDirection` raise `ValueError` on unknown strings (all modelled as
`none`); the remaining keys fall back to their defaults, with `freshId`
standing for `str(uuid.uuid4())` and `nowIso` for
`datetime.now().isoformat()`. -/
def Message.fromDict (freshId nowIso : String) (data : MsgDict) :
    Option Message := do
  let session_id ← data.session_id
  let content ← data.content
  let typeStr ← data.type
  let message_type ← messageTypeOfString typeStr
  let direction ←
    messageDirectionOfString (data.direction.getD "visitor_to_admin")
  pure
    { id := data.id.getD freshId
      session_id := session_id
      content := content
      message_type := message_type
      direction := direction
      timestamp := data.timestamp.getD nowIso
      metadata := data.metadata.getD [] }

/-! ## Claim C1 — session creation -/

/-- Store holding an active session `"s"` with message count 5. -/
def smC1 : SessionManager :=
  { sessions := [("s",
      { session_id := "s", created_at := 0, last_activity := 0, data := [],
        message_count := 5, is_active := true })],
    start_time := 0, daily_stats := {} }

/-- C1: the claim as stated is false. `create_session` for an id that
already has an active session does not fail with `AlreadyExists` and does
not leave the existing record unchanged: it silently replaces it (the
stored message count drops from 5 to 0). -/
theorem C1_counterexample :
    (dictLookup "s" smC1.sessions).map Session.is_active = some true ∧
    (dictLookup "s" smC1.sessions).map Session.message_count = some 5 ∧
    (dictLookup "s" (createSession smC1 "s" [] 10).1.sessions).map
      Session.message_count = some 0 := by
  exact ⟨rfl, rfl, rfl⟩

/-- C1 (amended): `create_session` never fails. For any id — including
one that already has an active session — it returns and stores a fresh
record whose created and last-activity times are the current time, whose
message count is 0 and whose active flag is true, replacing any previous
record for that id instead of failing with `AlreadyExists`. -/
theorem C1_create_inserts_fresh (sm : SessionManager) (sid : String)
    (initial_data : List (String × String)) (now : Int) :
    (createSession sm sid initial_data now).2
        = { session_id := sid, created_at := now, last_activity := now,
            data := initial_data, message_count := 0, is_active := true } ∧
    dictLookup sid (createSession sm sid initial_data now).1.sessions
      = some (createSession sm sid initial_data now).2 := by
  refine ⟨rfl, ?_⟩
  simp [createSession, dictLookup_dictInsert_self]

/-! ## Claim C2 — timeout boundary -/

/-- Settings with a 100-tick session timeout. -/
def stC2 : Settings :=
  { sessionTimeout := 100, maxSessions := 1000, cleanupInterval := 300 }

/-- An active session last touched at tick 0. -/
def sessC2 : Session :=
  { session_id := "s", created_at := 0, last_activity := 0, data := [] }

def smC2 : SessionManager :=
  { sessions := [("s", sessC2)], start_time := 0, daily_stats := {} }

/-- C2: the claim as stated is false. With inactivity exactly equal to
the configured timeout (100 ticks here), `validate_session` still
reports the session active and `_perform_cleanup` retains it, because
the code compares with strict `>`. -/
theorem C2_counterexample :
    (100 : Int) - sessC2.last_activity = stC2.sessionTimeout ∧
    (validateSession stC2 smC2 "s" 100).1 = true ∧
    dictContains "s" (performCleanup stC2 smC2 100).sessions = true := by
  exact ⟨rfl, rfl, rfl⟩

/-- C2 (amended): the timeout comparison is strict. With inactivity less
than or exactly equal to the configured timeout — so in particular one
unit before it — the session is still reported active by
`validate_session` and retained by the sweep; it is reported inactive
and swept only once the inactivity strictly exceeds the timeout. -/
theorem C2_timeout_strict (st : Settings) (sm : SessionManager)
    (sid : String) (now : Int) (s : Session)
    (hs : dictLookup sid sm.sessions = some s) (ha : s.is_active = true)
    (hn : (sm.sessions.map Prod.fst).Nodup) :
    ((validateSession st sm sid now).1 = true
        ↔ now - s.last_activity ≤ st.sessionTimeout) ∧
    (dictLookup sid (performCleanup st sm now).sessions = some s
        ↔ now - s.last_activity ≤ st.sessionTimeout) := by
  constructor
  · unfold validateSession
    rw [hs]
    by_cases h : now - s.last_activity > st.sessionTimeout
    · simp only [if_pos h]
      simp only [Bool.false_eq_true, false_iff]
      omega
    · simp only [if_neg h, ha, true_iff]
      omega
  · rw [performCleanup_sessions_eq st sm now hn,
      dictLookup_filter sm.sessions _ hn sid s hs]
    by_cases h : now - s.last_activity > st.sessionTimeout
    · have hd := decide_eq_true h
      simp only [cleanupRemoves, ha, hd, Bool.not_true, Bool.false_or,
        Bool.not_true, Bool.if_false_left]
      simp only [Bool.not_true, Bool.false_eq_true, if_false,
        reduceCtorEq, false_iff]
      omega
    · have hd : decide (now - s.last_activity > st.sessionTimeout)
          = false := by
        simpa using h
      simp only [cleanupRemoves, ha, hd, Bool.not_true, Bool.false_or,
        Bool.not_false, if_true, true_iff]
      omega

theorem C2_witness :
    ((validateSession stC2 smC2 "s" 50).1 = true
        ↔ (50 : Int) - sessC2.last_activity ≤ stC2.sessionTimeout) ∧
    (dictLookup "s" (performCleanup stC2 smC2 50).sessions = some sessC2
        ↔ (50 : Int) - sessC2.last_activity ≤ stC2.sessionTimeout) :=
  C2_timeout_strict stC2 smC2 "s" 50 sessC2 rfl rfl (by decide)

/-! ## Claim C3 — reply-thread map -/

/-- C3: the claim as stated is false. Recording an outbound id that is
already a key does not fail with `DuplicateKey`: the second `record`
overwrites, after which `resolve` returns the later session id, not the
one passed to the matching (first) record call. -/
theorem C3_counterexample :
    resolveMapping
        (recordMapping (recordMapping ⟨[]⟩ 100 "v1") 100 "v2") 100
      = some "v2" ∧
    ("v2" : String) ≠ "v1" := by
  exact ⟨rfl, by decide⟩

/-- C3 (amended): the reply-thread map is last-writer-wins. After
`record(mid, sid)`, `resolve(mid)` returns `sid` — the session id of the
most recent record call for that outbound id — and every other outbound
id resolves as before; a duplicate key silently overwrites the earlier
association instead of failing. -/
theorem C3_record_last_wins (tb : TelegramBotState) (mid mid' : Int)
    (sid : String) (h : mid' ≠ mid) :
    resolveMapping (recordMapping tb mid sid) mid = some sid ∧
    resolveMapping (recordMapping tb mid sid) mid'
      = resolveMapping tb mid' := by
  constructor
  · simp [resolveMapping, recordMapping, dictLookup_dictInsert_self]
  · simp [resolveMapping, recordMapping,
      dictLookup_dictInsert_ne _ _ _ _ h]

theorem C3_witness :
    resolveMapping (recordMapping ⟨[]⟩ 7 "v7") 7 = some "v7" ∧
    resolveMapping (recordMapping ⟨[]⟩ 7 "v7") 8
      = resolveMapping ⟨[]⟩ 8 :=
  C3_record_last_wins ⟨[]⟩ 7 8 "v7" (by decide)

/-! ## Claim C4 — registration supersession -/

def connC4old : ClientConnection :=
  { websocket := 1, session_id := "s", connected_at := 0,
    last_activity := 0 }

def connC4new : ClientConnection :=
  { websocket := 2, session_id := "s", connected_at := 10,
    last_activity := 10 }

def sysC4 : Sys :=
  { ws := { connections := [("s", connC4old)] }
    sm := { sessions := [], start_time := 0, daily_stats := {} }
    closedHandles := [] }

/-- C4: the second half of the claim is false. Registering a new
connection for an id that already has one installs the new handle, but
the old handle (here handle 1) is never closed by registration — the
set of closed handles stays empty. -/
theorem C4_counterexample :
    dictLookup "s" sysC4.ws.connections = some connC4old ∧
    dictLookup "s"
        (registerConnection sysC4 "s" connC4new 10).ws.connections
      = some connC4new ∧
    (registerConnection sysC4 "s" connC4new 10).closedHandles = [] := by
  exact ⟨rfl, rfl, rfl⟩

/-- C4 (amended): the registry keeps at most one registered connection
per session id at every instant — a new registration replaces the map
entry, so the key set stays duplicate-free and resolves to the new
handle — but registration does not close the superseded handle: the set
of closed handles is unchanged. -/
theorem C4_at_most_one_connection (sys : Sys) (sid : String)
    (conn : ClientConnection) (now : Int)
    (hn : (sys.ws.connections.map Prod.fst).Nodup) :
    ((registerConnection sys sid conn now).ws.connections.map
      Prod.fst).Nodup ∧
    dictLookup sid (registerConnection sys sid conn now).ws.connections
      = some conn ∧
    (registerConnection sys sid conn now).closedHandles
      = sys.closedHandles := by
  refine ⟨?_, ?_, rfl⟩
  · show ((dictInsert sid conn sys.ws.connections).map Prod.fst).Nodup
    exact nodup_keys_dictInsert _ _ _ hn
  · show dictLookup sid (dictInsert sid conn sys.ws.connections)
      = some conn
    exact dictLookup_dictInsert_self _ _ _

theorem C4_witness :
    ((registerConnection sysC4 "s" connC4new 10).ws.connections.map
      Prod.fst).Nodup ∧
    dictLookup "s"
        (registerConnection sysC4 "s" connC4new 10).ws.connections
      = some connC4new ∧
    (registerConnection sysC4 "s" connC4new 10).closedHandles
      = sysC4.closedHandles :=
  C4_at_most_one_connection sysC4 "s" connC4new 10 (by decide)

/-! ## Claim C5 — targeted send failure -/

def connC5 : ClientConnection :=
  { websocket := 3, session_id := "c", connected_at := 0,
    last_activity := 0 }

def sessC5 : Session :=
  { session_id := "c", created_at := 0, last_activity := 0, data := [] }

def sysC5 : Sys :=
  { ws := { connections := [("c", connC5)] }
    sm := { sessions := [("c", sessC5)], start_time := 0,
            daily_stats := {} }
    closedHandles := [] }

/-- Transport oracle under which every send raises `ConnectionClosed`. -/
def outcomeC5 : Nat → SendOutcome := fun _ => SendOutcome.closed

/-- C5: when a targeted send raises `ConnectionClosed`, `send_to_client`
returns failure after exactly one send attempt (no retry), the registry
entry is removed, the handle is closed, and the session store is told to
end the session, so its active flag becomes false. -/
theorem C5_transport_error_cascades (outcome : Nat → SendOutcome)
    (sys : Sys) (sid : String) (conn : ClientConnection) (s : Session)
    (hc : dictLookup sid sys.ws.connections = some conn)
    (hs : dictLookup sid sys.sm.sessions = some s)
    (ho : outcome conn.websocket = SendOutcome.closed) :
    (sendToClient outcome sys sid).1 = false ∧
    (sendToClient outcome sys sid).2.2 = 1 ∧
    dictLookup sid (sendToClient outcome sys sid).2.1.ws.connections
      = none ∧
    dictLookup sid (sendToClient outcome sys sid).2.1.sm.sessions
      = some { s with is_active := false } ∧
    conn.websocket ∈ (sendToClient outcome sys sid).2.1.closedHandles := by
  have hsend : sendToClient outcome sys sid
      = (false, cleanupConnection sys sid, 1) := by
    unfold sendToClient
    rw [hc]
    show (match outcome conn.websocket with
      | SendOutcome.ok => (true, sys, 1)
      | SendOutcome.closed => (false, cleanupConnection sys sid, 1)
      | SendOutcome.err => (false, sys, 1))
        = (false, cleanupConnection sys sid, 1)
    rw [ho]
  have hclean : cleanupConnection sys sid
      = { ws := { connections := dictRemove sid sys.ws.connections }
          closedHandles := conn.websocket :: sys.closedHandles
          sm := endSession sys.sm sid } := by
    unfold cleanupConnection
    rw [hc]
  rw [hsend, hclean]
  refine ⟨rfl, rfl, dictLookup_dictRemove_self _ _, ?_,
    List.mem_cons_self _ _⟩
  simp only [endSession, dictContains, hs, Option.isSome_some, if_true]
  rw [dictLookup_dictModify_self, hs]
  rfl

theorem C5_witness :
    (sendToClient outcomeC5 sysC5 "c").1 = false ∧
    (sendToClient outcomeC5 sysC5 "c").2.2 = 1 ∧
    dictLookup "c" (sendToClient outcomeC5 sysC5 "c").2.1.ws.connections
      = none ∧
    dictLookup "c" (sendToClient outcomeC5 sysC5 "c").2.1.sm.sessions
      = some { sessC5 with is_active := false } ∧
    connC5.websocket
      ∈ (sendToClient outcomeC5 sysC5 "c").2.1.closedHandles :=
  C5_transport_error_cascades outcomeC5 sysC5 "c" connC5 sessC5
    rfl rfl rfl

/-! ## Claim C6 — broadcast accounting -/

def connC6 : ClientConnection :=
  { websocket := 4, session_id := "b", connected_at := 0,
    last_activity := 0 }

def sessC6 : Session :=
  { session_id := "b", created_at := 0, last_activity := 0, data := [] }

def sysC6 : Sys :=
  { ws := { connections := [("b", connC6)] }
    sm := { sessions := [("b", sessC6)], start_time := 0,
            daily_stats := {} }
    closedHandles := [] }

/-- Transport oracle under which every send raises a generic exception
(not `ConnectionClosed`). -/
def outcomeC6 : Nat → SendOutcome := fun _ => SendOutcome.err

/-- Transport oracle under which every send raises `ConnectionClosed`. -/
def outcomeC6closed : Nat → SendOutcome := fun _ => SendOutcome.closed

/-- C6: the claim as stated is false. With N = 1 registered session
whose send fails (M = 1) with a generic exception, 0 deliveries succeed,
yet after the broadcast the registry still retains 1 entry, not
N − M = 0 — only `ConnectionClosed` failures are evicted, and the code
reports no delivery count to the caller at all. -/
theorem C6_counterexample :
    sysC6.ws.connections.length = 1 ∧
    broadcastDelivered outcomeC6 sysC6 none = 0 ∧
    (broadcast outcomeC6 sysC6 none).ws.connections.length = 1 := by
  exact ⟨rfl, rfl, rfl⟩

/-- C6 (amended): `broadcast` returns no delivery count to the caller;
after a pass over N registered entries it removes exactly the entries
whose send raised `ConnectionClosed`, retaining the others — including
entries whose send failed with any other exception — so with M
`ConnectionClosed` failures exactly N − M entries remain. -/
theorem C6_broadcast_evicts_only_closed (outcome : Nat → SendOutcome)
    (sys : Sys) (exclude : Option String)
    (hn : (sys.ws.connections.map Prod.fst).Nodup) :
    (broadcast outcome sys exclude).ws.connections
      = sys.ws.connections.filter
          (fun e => !(broadcastFails outcome exclude e)) ∧
    (broadcast outcome sys exclude).ws.connections.length
      = sys.ws.connections.length
        - (sys.ws.connections.filter
            (broadcastFails outcome exclude)).length := by
  have h := broadcast_connections_eq outcome sys exclude hn
  refine ⟨h, ?_⟩
  rw [h]
  have hsplit :
      (sys.ws.connections.filter
          (fun e => !(broadcastFails outcome exclude e))).length
        + (sys.ws.connections.filter
            (broadcastFails outcome exclude)).length
      = sys.ws.connections.length := by
    induction sys.ws.connections with
    | nil => rfl
    | cons e rest ih =>
        by_cases hp : broadcastFails outcome exclude e = true <;>
          simp [List.filter_cons, hp, ← ih] <;> omega
  omega

theorem C6_witness :
    (broadcast outcomeC6closed sysC6 none).ws.connections
      = sysC6.ws.connections.filter
          (fun e => !(broadcastFails outcomeC6closed none e)) ∧
    (broadcast outcomeC6closed sysC6 none).ws.connections.length
      = sysC6.ws.connections.length
        - (sysC6.ws.connections.filter
            (broadcastFails outcomeC6closed none)).length :=
  C6_broadcast_evicts_only_closed outcomeC6closed sysC6 none (by decide)

/-! ## Claim C7 — sweep vs. registry -/

def stC7 : Settings :=
  { sessionTimeout := 100, maxSessions := 1000, cleanupInterval := 300 }

def sessC7 : Session :=
  { session_id := "v2", created_at := 0, last_activity := 0, data := [] }

def connC7 : ClientConnection :=
  { websocket := 5, session_id := "v2", connected_at := 0,
    last_activity := 0 }

def sysC7 : Sys :=
  { ws := { connections := [("v2", connC7)] }
    sm := { sessions := [("v2", sessC7)], start_time := 0,
            daily_stats := {} }
    closedHandles := [] }

/-- C7: the claim is false. Session `"v2"`, idle past the timeout, is
removed from the session store by the sweep, but the sweep never calls
into the connection registry: `"v2"` still has a registered connection
afterwards. -/
theorem C7_counterexample :
    dictContains "v2" (sweepStep stC7 sysC7 201).sm.sessions = false ∧
    dictContains "v2" (sweepStep stC7 sysC7 201).ws.connections
      = true := by
  exact ⟨rfl, rfl⟩

/-- C7 (amended): the periodic sweep removes from the session store
exactly the sessions that are ended or idle strictly past the timeout,
and leaves the connection registry (and the set of closed handles)
completely untouched, so a swept session id can keep its registered
connection until that connection's own handler cleans it up. -/
theorem C7_sweep_ignores_registry (st : Settings) (sys : Sys) (now : Int)
    (hn : (sys.sm.sessions.map Prod.fst).Nodup) :
    (sweepStep st sys now).ws = sys.ws ∧
    (sweepStep st sys now).closedHandles = sys.closedHandles ∧
    (sweepStep st sys now).sm.sessions
      = sys.sm.sessions.filter
          (fun e => !(cleanupRemoves st now e.2)) := by
  exact ⟨rfl, rfl, performCleanup_sessions_eq st sys.sm now hn⟩

theorem C7_witness :
    (sweepStep stC7 sysC7 201).ws = sysC7.ws ∧
    (sweepStep stC7 sysC7 201).closedHandles = sysC7.closedHandles ∧
    (sweepStep stC7 sysC7 201).sm.sessions
      = sysC7.sm.sessions.filter
          (fun e => !(cleanupRemoves stC7 201 e.2)) :=
  C7_sweep_ignores_registry stC7 sysC7 201 (by decide)

/-! ## Claim C8 — idempotence of end and remove -/

/-- When the key is absent, cleanup is the identity. -/
theorem cleanupConnection_of_lookup_none (sys : Sys) (sid : String)
    (h : dictLookup sid sys.ws.connections = none) :
    cleanupConnection sys sid = sys := by
  unfold cleanupConnection
  rw [h]

def smC8 : SessionManager :=
  { sessions := [("s",
      { session_id := "s", created_at := 0, last_activity := 0,
        data := [] })],
    start_time := 0, daily_stats := {} }

/-- C8: the first half of the claim is false on the full store state.
Ending a present session twice leaves the session records as after one
call, but the `sessions_ended` daily counter is incremented by each
call, so the resulting store states differ (2 vs. 1). -/
theorem C8_counterexample :
    endSession (endSession smC8 "s") "s" ≠ endSession smC8 "s" ∧
    (endSession (endSession smC8 "s") "s").daily_stats.sessions_ended
      = 2 ∧
    (endSession smC8 "s").daily_stats.sessions_ended = 1 := by
  refine ⟨?_, rfl, rfl⟩
  intro h
  exact absurd
    (congrArg (fun sm => sm.daily_stats.sessions_ended) h) (by decide)

/-- C8 (amended): ending a session twice leaves the session records —
though not the daily statistics — in the same state as ending it once,
and the registry's `_cleanup_connection` is fully idempotent: the second
call is a no-op on the entire state. -/
theorem C8_idempotence :
    (∀ (sm : SessionManager) (sid : String),
      (endSession (endSession sm sid) sid).sessions
        = (endSession sm sid).sessions) ∧
    (∀ (sys : Sys) (sid : String),
      cleanupConnection (cleanupConnection sys sid) sid
        = cleanupConnection sys sid) := by
  constructor
  · intro sm sid
    by_cases h : dictContains sid sm.sessions = true
    · have h2 : dictContains sid
          (dictModify sid (fun s => { s with is_active := false })
            sm.sessions) = true := by
        unfold dictContains at h ⊢
        rw [dictLookup_dictModify_self]
        cases hx : dictLookup sid sm.sessions with
        | none => rw [hx] at h; simp at h
        | some v => simp
      simp only [endSession, h, if_true, h2]
      exact dictModify_dictModify_of_idem sid
        (fun s => { s with is_active := false }) (fun b => rfl)
        sm.sessions
    · have hb : dictContains sid sm.sessions = false := by
        simpa using h
      simp [endSession, hb]
  · intro sys sid
    have hnone : dictLookup sid
        (cleanupConnection sys sid).ws.connections = none := by
      rw [cleanupConnection_connections]
      exact dictLookup_dictRemove_self _ _
    exact cleanupConnection_of_lookup_none _ _ hnone

/-! ## Claim C9 — session-capacity limit -/

def stC9 : Settings :=
  { sessionTimeout := 86400, maxSessions := 1, cleanupInterval := 300 }

def sessC9 : Session :=
  { session_id := "v1", created_at := 0, last_activity := 0, data := [] }

def sysC9 : Sys :=
  { ws := { connections := [] }
    sm := { sessions := [("v1", sessC9)], start_time := 0,
            daily_stats := {} }
    closedHandles := [] }

def connC9 : ClientConnection :=
  { websocket := 6, session_id := "v9", connected_at := 5,
    last_activity := 5 }

/-- C9: the claim is false. With the session store already holding
`MAX_SESSIONS` (here 1) sessions, a new visitor connection is still
accepted: `_handle_client` registers the connection and creates the
session without ever consulting the configured maximum. -/
theorem C9_counterexample :
    sysC9.sm.sessions.length = stC9.maxSessions ∧
    dictLookup "v9"
        (registerConnection sysC9 "v9" connC9 5).ws.connections
      = some connC9 ∧
    (dictLookup "v9"
        (registerConnection sysC9 "v9" connC9 5).sm.sessions).map
      Session.is_active = some true := by
  exact ⟨rfl, rfl, rfl⟩

/-- C9 (amended): the configured `MAX_SESSIONS` is never enforced: even
when the session count is already at (or beyond) the maximum, a new
visitor connection is accepted — the handle is registered and an active
session is created — rather than rejected as server-busy. -/
theorem C9_no_capacity_check (st : Settings) (sys : Sys) (sid : String)
    (conn : ClientConnection) (now : Int)
    (_h : st.maxSessions ≤ sys.sm.sessions.length) :
    dictLookup sid (registerConnection sys sid conn now).ws.connections
      = some conn ∧
    (dictLookup sid
        (registerConnection sys sid conn now).sm.sessions).map
      Session.is_active = some true := by
  constructor
  · show dictLookup sid (dictInsert sid conn sys.ws.connections)
      = some conn
    exact dictLookup_dictInsert_self _ _ _
  · have hl : dictLookup sid
        (registerConnection sys sid conn now).sm.sessions
        = some { session_id := sid, created_at := now,
                 last_activity := now,
                 data := [("user_agent", conn.user_agent),
                          ("ip_address", conn.ip_address),
                          ("connected_at", toString conn.connected_at)],
                 message_count := 0, is_active := true } :=
      dictLookup_dictInsert_self _ _ _
    rw [hl]
    rfl

theorem C9_witness :
    dictLookup "v9"
        (registerConnection sysC9 "v9" connC9 5).ws.connections
      = some connC9 ∧
    (dictLookup "v9"
        (registerConnection sysC9 "v9" connC9 5).sm.sessions).map
      Session.is_active = some true :=
  C9_no_capacity_check stC9 sysC9 "v9" connC9 5 (by decide)

/-! ## Claim C10 — message dict round trip -/

theorem messageTypeOfString_value (t : MessageType) :
    messageTypeOfString t.value = some t := by
  cases t <;> rfl

theorem messageDirectionOfString_value (d : MessageDirection) :
    messageDirectionOfString d.value = some d := by
  cases d <;> rfl

/-- C10: converting any `Message` to a dictionary with `to_dict` and
parsing it back with `from_dict` returns the original message, equal in
every field (id, session id, content, type, direction, timestamp,
metadata), whatever fresh id and timestamp the parser would have used
as defaults. -/
theorem C10_roundtrip (freshId nowIso : String) (m : Message) :
    Message.fromDict freshId nowIso m.toDict = some m := by
  unfold Message.fromDict Message.toDict
  simp [messageTypeOfString_value, messageDirectionOfString_value]

end Bridge
